import Mathlib

/-!
Verification of the horoscope-ai action handlers.

Shallow embedding of `src/actions/index.ts` and `db/config.ts`:
the three tables (`HoroscopeProfiles`, `DailyHoroscopes`, `HoroscopeViews`)
become lists of records inside a `DB` state, and each Astro action handler
becomes a pure function from the optional authenticated user, the
(already schema-validated) input, any values the handler draws from the
environment (`crypto.randomUUID()`, `new Date()`), and the store state,
to `Except ActionError (response × DB)`.  Dates are modelled as `Nat`
(a canonical timestamp); a thrown `ActionError` becomes `Except.error`
and leaves the store untouched.
-/

namespace HoroscopeAI

/-- The authenticated identity supplied by `context.locals.user`. -/
structure User where
  id : String
  deriving DecidableEq, Repr

/-- The `ActionError` codes used by the handlers. -/
inductive ErrCode where
  | UNAUTHORIZED
  | NOT_FOUND
  | FORBIDDEN
  deriving DecidableEq, Repr

/-- `ActionError`: a machine-readable code plus a message. -/
structure ActionError where
  code : ErrCode
  message : String
  deriving DecidableEq, Repr

/-- Row of the `HoroscopeProfiles` table (`db/config.ts`). -/
structure Profile where
  id : String
  userId : String
  name : Option String
  birthDate : Option Nat
  birthTime : Option String
  birthPlace : Option String
  zodiacSign : Option String
  preferredLanguage : Option String
  notes : Option String
  createdAt : Nat
  updatedAt : Nat
  deriving DecidableEq, Repr

/-- Row of the `DailyHoroscopes` table (`db/config.ts`).  Note: no owner
or creating-user column exists in the schema. -/
structure DailyHoroscope where
  id : String
  horoscopeDate : Nat
  zodiacSign : String
  language : Option String
  generalText : String
  loveText : Option String
  careerText : Option String
  healthText : Option String
  luckyNumber : Option String
  luckyColor : Option String
  mood : Option String
  createdAt : Nat
  deriving DecidableEq, Repr

/-- Row of the `HoroscopeViews` table (`db/config.ts`). -/
structure ViewLog where
  id : String
  profileId : Option String
  userId : String
  dailyHoroscopeId : Option String
  viewedAt : Nat
  deviceInfo : Option String
  createdAt : Nat
  deriving DecidableEq, Repr

/-- The store: one list per table, in insertion order. -/
structure DB where
  horoscopeProfiles : List Profile
  dailyHoroscopes : List DailyHoroscope
  horoscopeViews : List ViewLog
  deriving DecidableEq, Repr

/-- The `UNAUTHORIZED` error thrown by `requireUser`. -/
def unauthorizedError : ActionError :=
  ⟨.UNAUTHORIZED, "You must be signed in to perform this action."⟩

/-- `requireUser` (`index.ts` lines 13-25): missing identity throws
`UNAUTHORIZED` before anything else happens. -/
def requireUser (user? : Option User) : Except ActionError User :=
  match user? with
  | none => .error unauthorizedError
  | some u => .ok u

/-- Response `\x7b success: true, data: \x7b id \x7d \x7d` shared by the
create/update/delete/log handlers. -/
structure IdResp where
  success : Bool
  id : String
  deriving DecidableEq, Repr

/-- Response of the two list handlers. -/
structure ListResp (α : Type) where
  success : Bool
  items : List α
  total : Nat
  deriving DecidableEq, Repr

/-- Input of `createProfile` after zod validation. -/
structure CreateProfileInput where
  name : Option String
  birthDate : Option Nat
  birthTime : Option String
  birthPlace : Option String
  zodiacSign : Option String
  preferredLanguage : Option String
  notes : Option String
  deriving DecidableEq, Repr

/-- `createProfile` handler (`index.ts` lines 38-61): `id` stands for
`crypto.randomUUID()` and `now` for `new Date()`. -/
def createProfile (user? : Option User) (inp : CreateProfileInput)
    (id : String) (now : Nat) (db : DB) : Except ActionError (IdResp × DB) :=
  match requireUser user? with
  | .error e => .error e
  | .ok user =>
    .ok (⟨true, id⟩,
      { db with horoscopeProfiles := db.horoscopeProfiles ++
          [{ id := id
             userId := user.id
             name := inp.name
             birthDate := inp.birthDate
             birthTime := inp.birthTime
             birthPlace := inp.birthPlace
             zodiacSign := inp.zodiacSign
             preferredLanguage := inp.preferredLanguage
             notes := inp.notes
             createdAt := now
             updatedAt := now }] })

/-- Input of `updateProfile` after zod validation (`id` has min length 1). -/
structure UpdateProfileInput where
  id : String
  name : Option String
  birthDate : Option Nat
  birthTime : Option String
  birthPlace : Option String
  zodiacSign : Option String
  preferredLanguage : Option String
  notes : Option String
  deriving DecidableEq, Repr

/-- The `updates` object of `updateProfile` (`index.ts` lines 98-109)
applied to one row: `updatedAt` is always refreshed; each optional field
is written only when the input field is not `undefined`. -/
def applyProfileUpdate (inp : UpdateProfileInput) (now : Nat) (p : Profile) : Profile :=
  { p with
    updatedAt := now
    name := match inp.name with | some v => some v | none => p.name
    birthDate := match inp.birthDate with | some v => some v | none => p.birthDate
    birthTime := match inp.birthTime with | some v => some v | none => p.birthTime
    birthPlace := match inp.birthPlace with | some v => some v | none => p.birthPlace
    zodiacSign := match inp.zodiacSign with | some v => some v | none => p.zodiacSign
    preferredLanguage :=
      match inp.preferredLanguage with | some v => some v | none => p.preferredLanguage
    notes := match inp.notes with | some v => some v | none => p.notes }

/-- The owner-scoped row lookup shared by `updateProfile`, `deleteProfile`
and `logHoroscopeView`: `and(eq(HoroscopeProfiles.id, _), eq(HoroscopeProfiles.userId, _))`. -/
def profileOwnedBy (pid : String) (uid : String) (p : Profile) : Bool :=
  p.id == pid && p.userId == uid

/-- The `NOT_FOUND` error thrown by `updateProfile` and `deleteProfile`. -/
def profileNotFoundError : ActionError :=
  ⟨.NOT_FOUND, "Profile not found."⟩

/-- `updateProfile` handler (`index.ts` lines 64-126). -/
def updateProfile (user? : Option User) (inp : UpdateProfileInput)
    (now : Nat) (db : DB) : Except ActionError (IdResp × DB) :=
  match requireUser user? with
  | .error e => .error e
  | .ok user =>
    match db.horoscopeProfiles.find? (profileOwnedBy inp.id user.id) with
    | none => .error profileNotFoundError
    | some _ =>
      .ok (⟨true, inp.id⟩,
        { db with horoscopeProfiles := db.horoscopeProfiles.map fun p =>
            if profileOwnedBy inp.id user.id p then applyProfileUpdate inp now p else p })

/-- Input of `deleteProfile` after zod validation. -/
structure DeleteProfileInput where
  id : String
  deriving DecidableEq, Repr

/-- `deleteProfile` handler (`index.ts` lines 128-169). -/
def deleteProfile (user? : Option User) (inp : DeleteProfileInput)
    (db : DB) : Except ActionError (IdResp × DB) :=
  match requireUser user? with
  | .error e => .error e
  | .ok user =>
    match db.horoscopeProfiles.find? (profileOwnedBy inp.id user.id) with
    | none => .error profileNotFoundError
    | some _ =>
      .ok (⟨true, inp.id⟩,
        { db with horoscopeProfiles :=
            db.horoscopeProfiles.filter fun p => !(profileOwnedBy inp.id user.id p) })

/-- `listProfiles` handler (`index.ts` lines 171-189). -/
def listProfiles (user? : Option User) (db : DB) :
    Except ActionError (ListResp Profile × DB) :=
  match requireUser user? with
  | .error e => .error e
  | .ok user =>
    let profiles := db.horoscopeProfiles.filter fun p => p.userId == user.id
    .ok (⟨true, profiles, profiles.length⟩, db)

/-- Input of `createDailyHoroscope` after zod validation
(`zodiacSign` and `generalText` have min length 1). -/
structure CreateDailyHoroscopeInput where
  horoscopeDate : Nat
  zodiacSign : String
  language : Option String
  generalText : String
  loveText : Option String
  careerText : Option String
  healthText : Option String
  luckyNumber : Option String
  luckyColor : Option String
  mood : Option String
  deriving DecidableEq, Repr

/-- Response of `createDailyHoroscope`: `\x7b id, ownerId \x7d`. -/
structure CreateDailyHoroscopeResp where
  success : Bool
  id : String
  ownerId : String
  deriving DecidableEq, Repr

/-- `createDailyHoroscope` handler (`index.ts` lines 191-228). -/
def createDailyHoroscope (user? : Option User) (inp : CreateDailyHoroscopeInput)
    (id : String) (now : Nat) (db : DB) :
    Except ActionError (CreateDailyHoroscopeResp × DB) :=
  match requireUser user? with
  | .error e => .error e
  | .ok user =>
    .ok (⟨true, id, user.id⟩,
      { db with dailyHoroscopes := db.dailyHoroscopes ++
          [{ id := id
             horoscopeDate := inp.horoscopeDate
             zodiacSign := inp.zodiacSign
             language := inp.language
             generalText := inp.generalText
             loveText := inp.loveText
             careerText := inp.careerText
             healthText := inp.healthText
             luckyNumber := inp.luckyNumber
             luckyColor := inp.luckyColor
             mood := inp.mood
             createdAt := now }] })

/-- Input of `updateDailyHoroscope` after zod validation. -/
structure UpdateDailyHoroscopeInput where
  id : String
  horoscopeDate : Option Nat
  zodiacSign : Option String
  language : Option String
  generalText : Option String
  loveText : Option String
  careerText : Option String
  healthText : Option String
  luckyNumber : Option String
  luckyColor : Option String
  mood : Option String
  deriving DecidableEq, Repr

/-- The `updates` object of `updateDailyHoroscope` (`index.ts` lines
262-274) applied to one row: each field is written only when the input
field is not `undefined`; nothing else changes. -/
def applyDailyHoroscopeUpdate (inp : UpdateDailyHoroscopeInput)
    (h : DailyHoroscope) : DailyHoroscope :=
  { h with
    horoscopeDate := match inp.horoscopeDate with | some v => v | none => h.horoscopeDate
    zodiacSign := match inp.zodiacSign with | some v => v | none => h.zodiacSign
    language := match inp.language with | some v => some v | none => h.language
    generalText := match inp.generalText with | some v => v | none => h.generalText
    loveText := match inp.loveText with | some v => some v | none => h.loveText
    careerText := match inp.careerText with | some v => some v | none => h.careerText
    healthText := match inp.healthText with | some v => some v | none => h.healthText
    luckyNumber := match inp.luckyNumber with | some v => some v | none => h.luckyNumber
    luckyColor := match inp.luckyColor with | some v => some v | none => h.luckyColor
    mood := match inp.mood with | some v => some v | none => h.mood }

/-- The `NOT_FOUND` error of `updateDailyHoroscope` and `logHoroscopeView`. -/
def dailyHoroscopeNotFoundError : ActionError :=
  ⟨.NOT_FOUND, "Daily horoscope not found."⟩

/-- `updateDailyHoroscope` handler (`index.ts` lines 230-286): the row is
looked up by `id` alone, with no ownership condition. -/
def updateDailyHoroscope (user? : Option User) (inp : UpdateDailyHoroscopeInput)
    (db : DB) : Except ActionError (IdResp × DB) :=
  match requireUser user? with
  | .error e => .error e
  | .ok _ =>
    match db.dailyHoroscopes.find? (fun h => h.id == inp.id) with
    | none => .error dailyHoroscopeNotFoundError
    | some _ =>
      .ok (⟨true, inp.id⟩,
        { db with dailyHoroscopes := db.dailyHoroscopes.map fun h =>
            if h.id == inp.id then applyDailyHoroscopeUpdate inp h else h })

/-- Input of `getDailyHoroscope` after zod validation
(`zodiacSign` has min length 1). -/
structure GetDailyHoroscopeInput where
  zodiacSign : String
  horoscopeDate : Option Nat
  language : Option String
  deriving DecidableEq, Repr

/-- Response of `getDailyHoroscope`. -/
structure GetDailyHoroscopeResp where
  success : Bool
  horoscope : DailyHoroscope
  deriving DecidableEq, Repr

/-- The conjunction of conditions built by `getDailyHoroscope`
(`index.ts` lines 296-303): sign and date always, language only when the
input value is truthy (present and non-empty). -/
def getConditions (sign : String) (targetDate : Nat) (lang : Option String)
    (h : DailyHoroscope) : Bool :=
  h.zodiacSign == sign && h.horoscopeDate == targetDate &&
    (match lang with
     | some v => if v != "" then h.language == some v else true
     | none => true)

/-- The `NOT_FOUND` error of `getDailyHoroscope`. -/
def noHoroscopeFoundError : ActionError :=
  ⟨.NOT_FOUND, "No horoscope found for the given sign and date."⟩

/-- `input.horoscopeDate ?? new Date()` (`index.ts` line 295). -/
def resolveTargetDate (horoscopeDate? : Option Nat) (now : Nat) : Nat :=
  match horoscopeDate? with
  | some d => d
  | none => now

/-- `getDailyHoroscope` handler (`index.ts` lines 288-325): no
`requireUser` call — the identity argument is ignored (the source handler
does not take the context).  `now` stands for `new Date()`. -/
def getDailyHoroscope (_user? : Option User) (inp : GetDailyHoroscopeInput)
    (now : Nat) (db : DB) : Except ActionError (GetDailyHoroscopeResp × DB) :=
  let targetDate := resolveTargetDate inp.horoscopeDate now
  match db.dailyHoroscopes.find? (getConditions inp.zodiacSign targetDate inp.language) with
  | none => .error noHoroscopeFoundError
  | some h => .ok (⟨true, h⟩, db)

/-- Input of `listDailyHoroscopes` (the whole object is optional). -/
structure ListDailyHoroscopesInput where
  zodiacSign : Option String
  horoscopeDate : Option Nat
  language : Option String
  deriving DecidableEq, Repr

/-- The conjunction of conditions built by `listDailyHoroscopes`
(`index.ts` lines 336-348): each condition is added only when the input
value is truthy; a date value, when present, is always truthy; an empty
conditions list means no `where` clause, i.e. every row matches. -/
def listConditions (inp? : Option ListDailyHoroscopesInput) (h : DailyHoroscope) : Bool :=
  (match inp?.bind (fun i => i.zodiacSign) with
   | some v => if v != "" then h.zodiacSign == v else true
   | none => true) &&
  (match inp?.bind (fun i => i.horoscopeDate) with
   | some d => h.horoscopeDate == d
   | none => true) &&
  (match inp?.bind (fun i => i.language) with
   | some v => if v != "" then h.language == some v else true
   | none => true)

/-- `listDailyHoroscopes` handler (`index.ts` lines 327-366): no
`requireUser` call — the identity argument is ignored. -/
def listDailyHoroscopes (_user? : Option User) (inp? : Option ListDailyHoroscopesInput)
    (db : DB) : Except ActionError (ListResp DailyHoroscope × DB) :=
  let rows := db.dailyHoroscopes.filter (listConditions inp?)
  .ok (⟨true, rows, rows.length⟩, db)

/-- Input of `logHoroscopeView` after zod validation. -/
structure LogHoroscopeViewInput where
  profileId : Option String
  dailyHoroscopeId : Option String
  deviceInfo : Option String
  deriving DecidableEq, Repr

/-- The `FORBIDDEN` error of `logHoroscopeView`. -/
def profileForbiddenError : ActionError :=
  ⟨.FORBIDDEN, "Profile not found for this user."⟩

/-- `logHoroscopeView` handler (`index.ts` lines 368-434): the profile
ownership check runs only when `input.profileId` is truthy, the horoscope
existence check only when `input.dailyHoroscopeId` is truthy; both checks
precede the insert. -/
def logHoroscopeView (user? : Option User) (inp : LogHoroscopeViewInput)
    (id : String) (now : Nat) (db : DB) : Except ActionError (IdResp × DB) :=
  match requireUser user? with
  | .error e => .error e
  | .ok user =>
    let profileCheck : Except ActionError Unit :=
      match inp.profileId with
      | some pid =>
        if pid != "" then
          match db.horoscopeProfiles.find? (profileOwnedBy pid user.id) with
          | none => .error profileForbiddenError
          | some _ => .ok ()
        else .ok ()
      | none => .ok ()
    match profileCheck with
    | .error e => .error e
    | .ok _ =>
      let horoscopeCheck : Except ActionError Unit :=
        match inp.dailyHoroscopeId with
        | some hid =>
          if hid != "" then
            match db.dailyHoroscopes.find? (fun h => h.id == hid) with
            | none => .error dailyHoroscopeNotFoundError
            | some _ => .ok ()
          else .ok ()
        | none => .ok ()
      match horoscopeCheck with
      | .error e => .error e
      | .ok _ =>
        .ok (⟨true, id⟩,
          { db with horoscopeViews := db.horoscopeViews ++
              [{ id := id
                 profileId := inp.profileId
                 userId := user.id
                 dailyHoroscopeId := inp.dailyHoroscopeId
                 viewedAt := now
                 deviceInfo := inp.deviceInfo
                 createdAt := now }] })

/-! ### Concrete fixtures used by the witness theorems -/

/-- A profile owned by user `u2`, for exercising wrong-owner paths. -/
def wProfile : Profile :=
  { id := "p1", userId := "u2", name := some "Self", birthDate := none,
    birthTime := none, birthPlace := none, zodiacSign := some "aries",
    preferredLanguage := none, notes := none, createdAt := 0, updatedAt := 0 }

/-- A store holding only `wProfile`. -/
def wDB : DB :=
  { horoscopeProfiles := [wProfile], dailyHoroscopes := [], horoscopeViews := [] }

/-- The empty store. -/
def emptyDB : DB :=
  { horoscopeProfiles := [], dailyHoroscopes := [], horoscopeViews := [] }

/-! ### Claims -/

/-- C1: for every authenticated caller and profile identifier, if no
profile row has both that identifier and the caller as owning user
(absent or owned by someone else alike), `updateProfile` and
`deleteProfile` both fail with the one `NOT_FOUND` error
`profileNotFoundError`, so the two situations are indistinguishable. -/
theorem profile_mutation_notFound_indistinguishable
    (u : User) (inp : UpdateProfileInput) (now : Nat) (db : DB)
    (h : ∀ p ∈ db.horoscopeProfiles, ¬(p.id = inp.id ∧ p.userId = u.id)) :
    updateProfile (some u) inp now db = .error profileNotFoundError ∧
    deleteProfile (some u) ⟨inp.id⟩ db = .error profileNotFoundError := by
  have hfind : db.horoscopeProfiles.find? (profileOwnedBy inp.id u.id) = none := by
    rw [List.find?_eq_none]
    intro p hp
    simp only [profileOwnedBy, Bool.and_eq_true, beq_iff_eq]
    exact h p hp
  constructor
  · simp [updateProfile, requireUser, hfind]
  · simp [deleteProfile, requireUser, hfind]

/-- Witness for C1: caller `u1` against the store whose only profile
`p1` is owned by `u2`. -/
theorem profile_mutation_notFound_indistinguishable_witness :
    updateProfile (some ⟨"u1"⟩) ⟨"p1", none, none, none, none, none, none, none⟩ 5 wDB
      = .error profileNotFoundError ∧
    deleteProfile (some ⟨"u1"⟩) ⟨"p1"⟩ wDB = .error profileNotFoundError :=
  profile_mutation_notFound_indistinguishable ⟨"u1"⟩
    ⟨"p1", none, none, none, none, none, none, none⟩ 5 wDB (by decide)

/-- C2: on a profile owned by the caller, `updateProfile` succeeds and
rewrites exactly the owner-matched rows through `applyProfileUpdate`,
which writes exactly the supplied fields, leaves every unsupplied field
at its prior value, always sets `updatedAt` to now, and never changes
`id`, `userId` or `createdAt`. -/
theorem updateProfile_partial_frame
    (u : User) (inp : UpdateProfileInput) (now : Nat) (db : DB)
    (hfound : ∃ p ∈ db.horoscopeProfiles, p.id = inp.id ∧ p.userId = u.id) :
    updateProfile (some u) inp now db =
      .ok (⟨true, inp.id⟩,
        { db with horoscopeProfiles := db.horoscopeProfiles.map fun p =>
            if profileOwnedBy inp.id u.id p then applyProfileUpdate inp now p else p }) ∧
    ∀ p : Profile,
      (applyProfileUpdate inp now p).id = p.id ∧
      (applyProfileUpdate inp now p).userId = p.userId ∧
      (applyProfileUpdate inp now p).createdAt = p.createdAt ∧
      (applyProfileUpdate inp now p).updatedAt = now ∧
      (inp.name = none → (applyProfileUpdate inp now p).name = p.name) ∧
      (∀ v, inp.name = some v → (applyProfileUpdate inp now p).name = some v) ∧
      (inp.birthDate = none → (applyProfileUpdate inp now p).birthDate = p.birthDate) ∧
      (∀ v, inp.birthDate = some v → (applyProfileUpdate inp now p).birthDate = some v) ∧
      (inp.birthTime = none → (applyProfileUpdate inp now p).birthTime = p.birthTime) ∧
      (∀ v, inp.birthTime = some v → (applyProfileUpdate inp now p).birthTime = some v) ∧
      (inp.birthPlace = none → (applyProfileUpdate inp now p).birthPlace = p.birthPlace) ∧
      (∀ v, inp.birthPlace = some v → (applyProfileUpdate inp now p).birthPlace = some v) ∧
      (inp.zodiacSign = none → (applyProfileUpdate inp now p).zodiacSign = p.zodiacSign) ∧
      (∀ v, inp.zodiacSign = some v → (applyProfileUpdate inp now p).zodiacSign = some v) ∧
      (inp.preferredLanguage = none →
        (applyProfileUpdate inp now p).preferredLanguage = p.preferredLanguage) ∧
      (∀ v, inp.preferredLanguage = some v →
        (applyProfileUpdate inp now p).preferredLanguage = some v) ∧
      (inp.notes = none → (applyProfileUpdate inp now p).notes = p.notes) ∧
      (∀ v, inp.notes = some v → (applyProfileUpdate inp now p).notes = some v) := by
  constructor
  · have hfind : (db.horoscopeProfiles.find? (profileOwnedBy inp.id u.id)).isSome := by
      rw [List.find?_isSome]
      obtain ⟨p, hpm, hid, huid⟩ := hfound
      exact ⟨p, hpm, by simp [profileOwnedBy, hid, huid]⟩
    obtain ⟨p0, hp0⟩ := Option.isSome_iff_exists.mp hfind
    simp [updateProfile, requireUser, hp0]
  · intro p
    refine ⟨rfl, rfl, rfl, rfl, ?_, ?_, ?_, ?_, ?_, ?_, ?_, ?_, ?_, ?_, ?_, ?_, ?_, ?_⟩ <;>
      first
        | (intro h; simp [applyProfileUpdate, h])
        | (intro v h; simp [applyProfileUpdate, h])

/-- The concrete `updateProfile` input used by the C2 witness: only the
`name` field is supplied. -/
def upd2Input : UpdateProfileInput :=
  ⟨"p1", some "New", none, none, none, none, none, none⟩

/-- Witness for C2: owner `u2` updates only the name of `p1`. -/
theorem updateProfile_partial_frame_witness :
    (∃ p ∈ wDB.horoscopeProfiles, p.id = "p1" ∧ p.userId = "u2") ∧
    updateProfile (some ⟨"u2"⟩) upd2Input 9 wDB =
      .ok (⟨true, "p1"⟩,
        { wDB with horoscopeProfiles := wDB.horoscopeProfiles.map fun p =>
            if profileOwnedBy "p1" "u2" p then applyProfileUpdate upd2Input 9 p else p }) ∧
    (applyProfileUpdate upd2Input 9 wProfile).name = some "New" ∧
    (applyProfileUpdate upd2Input 9 wProfile).zodiacSign = wProfile.zodiacSign ∧
    (applyProfileUpdate upd2Input 9 wProfile).updatedAt = 9 ∧
    (applyProfileUpdate upd2Input 9 wProfile).userId = wProfile.userId := by
  have h := updateProfile_partial_frame ⟨"u2"⟩ upd2Input 9 wDB (by decide)
  exact ⟨by decide, h.1, by decide, by decide, by decide, by decide⟩

/-- C5: with no authenticated identity every handler except
`getDailyHoroscope` and `listDailyHoroscopes` fails with the
`UNAUTHORIZED` error and returns no new store state, while the two
read-only horoscope queries are independent of the identity argument. -/
theorem handlers_unauthorized_short_circuit
    (cpi : CreateProfileInput) (upi : UpdateProfileInput) (dpi : DeleteProfileInput)
    (cdi : CreateDailyHoroscopeInput) (udi : UpdateDailyHoroscopeInput)
    (gdi : GetDailyHoroscopeInput) (ldi : Option ListDailyHoroscopesInput)
    (lvi : LogHoroscopeViewInput) (id : String) (now : Nat) (db : DB)
    (u1? u2? : Option User) :
    createProfile none cpi id now db = .error unauthorizedError ∧
    updateProfile none upi now db = .error unauthorizedError ∧
    deleteProfile none dpi db = .error unauthorizedError ∧
    listProfiles none db = .error unauthorizedError ∧
    createDailyHoroscope none cdi id now db = .error unauthorizedError ∧
    updateDailyHoroscope none udi db = .error unauthorizedError ∧
    logHoroscopeView none lvi id now db = .error unauthorizedError ∧
    getDailyHoroscope u1? gdi now db = getDailyHoroscope u2? gdi now db ∧
    listDailyHoroscopes u1? ldi db = listDailyHoroscopes u2? ldi db :=
  ⟨rfl, rfl, rfl, rfl, rfl, rfl, rfl, rfl, rfl⟩

/-- C6: `createProfile` with a fresh identifier inserts a profile owned
by the caller with both timestamps set to now, and the identifier then
appears in `listProfiles` for that caller and for no other caller. -/
theorem createProfile_listProfiles_visibility
    (u : User) (inp : CreateProfileInput) (id : String) (now : Nat) (db : DB)
    (hfresh : ∀ p ∈ db.horoscopeProfiles, p.id ≠ id) :
    ∃ db2 newp,
      createProfile (some u) inp id now db = .ok (⟨true, id⟩, db2) ∧
      db2.horoscopeProfiles = db.horoscopeProfiles ++ [newp] ∧
      newp.id = id ∧ newp.userId = u.id ∧ newp.createdAt = now ∧ newp.updatedAt = now ∧
      (∀ resp db3, listProfiles (some u) db2 = .ok (resp, db3) →
        id ∈ resp.items.map Profile.id) ∧
      (∀ u2 : User, u2.id ≠ u.id → ∀ resp db3,
        listProfiles (some u2) db2 = .ok (resp, db3) →
        id ∉ resp.items.map Profile.id) := by
  refine ⟨_, _, rfl, rfl, rfl, rfl, rfl, rfl, ?_, ?_⟩
  · intro resp db3 heq
    simp only [listProfiles, requireUser, Except.ok.injEq, Prod.mk.injEq] at heq
    obtain ⟨h1, -⟩ := heq
    subst h1
    simp only [List.mem_map, List.mem_filter, List.mem_append, List.mem_singleton]
    exact ⟨_, ⟨Or.inr rfl, by simp⟩, rfl⟩
  · intro u2 hne resp db3 heq
    simp only [listProfiles, requireUser, Except.ok.injEq, Prod.mk.injEq] at heq
    obtain ⟨h1, -⟩ := heq
    subst h1
    intro hmem
    simp only [List.mem_map, List.mem_filter, List.mem_append, List.mem_singleton] at hmem
    obtain ⟨p, ⟨hpin, hpu⟩, hpid⟩ := hmem
    cases hpin with
    | inl hin => exact hfresh p hin hpid
    | inr hin =>
      subst hin
      rw [beq_iff_eq] at hpu
      exact hne (by simpa using hpu.symm)

/-- The concrete `createProfile` input used by the C6 witness. -/
def cpInput : CreateProfileInput :=
  ⟨some "Self", none, none, none, some "aries", none, none⟩

/-- Witness for C6: `u1` creates profile `pNew` in the store already
holding `u2`'s profile `p1`. -/
theorem createProfile_listProfiles_visibility_witness :
    (∀ p ∈ wDB.horoscopeProfiles, p.id ≠ "pNew") ∧
    (∃ db2 newp,
      createProfile (some ⟨"u1"⟩) cpInput "pNew" 3 wDB = .ok (⟨true, "pNew"⟩, db2) ∧
      db2.horoscopeProfiles = wDB.horoscopeProfiles ++ [newp] ∧
      newp.id = "pNew" ∧ newp.userId = "u1" ∧ newp.createdAt = 3 ∧ newp.updatedAt = 3 ∧
      (∀ resp db3, listProfiles (some ⟨"u1"⟩) db2 = .ok (resp, db3) →
        "pNew" ∈ resp.items.map Profile.id) ∧
      (∀ u2 : User, u2.id ≠ "u1" → ∀ resp db3,
        listProfiles (some u2) db2 = .ok (resp, db3) →
        "pNew" ∉ resp.items.map Profile.id)) :=
  ⟨by decide, createProfile_listProfiles_visibility ⟨"u1"⟩ cpInput "pNew" 3 wDB (by decide)⟩

/-- C7: `updateDailyHoroscope` checks no ownership: any authenticated
caller gets the same successful update of an existing row, which writes
exactly the supplied fields through `applyDailyHoroscopeUpdate`; the
handler fails with `NOT_FOUND` only when no row carries the identifier. -/
theorem updateDailyHoroscope_no_ownership
    (u : User) (inp : UpdateDailyHoroscopeInput) (db : DB) :
    ((∃ h ∈ db.dailyHoroscopes, h.id = inp.id) →
      ∀ u2 : User,
        updateDailyHoroscope (some u2) inp db =
          .ok (⟨true, inp.id⟩,
            { db with dailyHoroscopes := db.dailyHoroscopes.map fun h =>
                if h.id == inp.id then applyDailyHoroscopeUpdate inp h else h })) ∧
    ((∀ h ∈ db.dailyHoroscopes, h.id ≠ inp.id) →
      updateDailyHoroscope (some u) inp db = .error dailyHoroscopeNotFoundError) ∧
    (∀ h : DailyHoroscope,
      (applyDailyHoroscopeUpdate inp h).id = h.id ∧
      (applyDailyHoroscopeUpdate inp h).createdAt = h.createdAt ∧
      (inp.horoscopeDate = none →
        (applyDailyHoroscopeUpdate inp h).horoscopeDate = h.horoscopeDate) ∧
      (∀ v, inp.horoscopeDate = some v →
        (applyDailyHoroscopeUpdate inp h).horoscopeDate = v) ∧
      (inp.zodiacSign = none → (applyDailyHoroscopeUpdate inp h).zodiacSign = h.zodiacSign) ∧
      (∀ v, inp.zodiacSign = some v → (applyDailyHoroscopeUpdate inp h).zodiacSign = v) ∧
      (inp.language = none → (applyDailyHoroscopeUpdate inp h).language = h.language) ∧
      (∀ v, inp.language = some v → (applyDailyHoroscopeUpdate inp h).language = some v) ∧
      (inp.generalText = none →
        (applyDailyHoroscopeUpdate inp h).generalText = h.generalText) ∧
      (∀ v, inp.generalText = some v →
        (applyDailyHoroscopeUpdate inp h).generalText = v) ∧
      (inp.loveText = none → (applyDailyHoroscopeUpdate inp h).loveText = h.loveText) ∧
      (∀ v, inp.loveText = some v → (applyDailyHoroscopeUpdate inp h).loveText = some v) ∧
      (inp.careerText = none → (applyDailyHoroscopeUpdate inp h).careerText = h.careerText) ∧
      (∀ v, inp.careerText = some v →
        (applyDailyHoroscopeUpdate inp h).careerText = some v) ∧
      (inp.healthText = none → (applyDailyHoroscopeUpdate inp h).healthText = h.healthText) ∧
      (∀ v, inp.healthText = some v →
        (applyDailyHoroscopeUpdate inp h).healthText = some v) ∧
      (inp.luckyNumber = none →
        (applyDailyHoroscopeUpdate inp h).luckyNumber = h.luckyNumber) ∧
      (∀ v, inp.luckyNumber = some v →
        (applyDailyHoroscopeUpdate inp h).luckyNumber = some v) ∧
      (inp.luckyColor = none → (applyDailyHoroscopeUpdate inp h).luckyColor = h.luckyColor) ∧
      (∀ v, inp.luckyColor = some v →
        (applyDailyHoroscopeUpdate inp h).luckyColor = some v) ∧
      (inp.mood = none → (applyDailyHoroscopeUpdate inp h).mood = h.mood) ∧
      (∀ v, inp.mood = some v → (applyDailyHoroscopeUpdate inp h).mood = some v)) := by
  refine ⟨?_, ?_, ?_⟩
  · intro hex u2
    have hfind : (db.dailyHoroscopes.find? (fun h => h.id == inp.id)).isSome := by
      rw [List.find?_isSome]
      obtain ⟨h, hm, hid⟩ := hex
      exact ⟨h, hm, by simp [hid]⟩
    obtain ⟨h0, hh0⟩ := Option.isSome_iff_exists.mp hfind
    simp [updateDailyHoroscope, requireUser, hh0]
  · intro hnone
    have hfind : db.dailyHoroscopes.find? (fun h => h.id == inp.id) = none := by
      rw [List.find?_eq_none]
      intro h hm
      simp only [beq_iff_eq]
      exact hnone h hm
    simp [updateDailyHoroscope, requireUser, hfind]
  · intro h
    refine ⟨rfl, rfl, ?_, ?_, ?_, ?_, ?_, ?_, ?_, ?_, ?_, ?_, ?_, ?_, ?_, ?_, ?_, ?_,
      ?_, ?_, ?_, ?_⟩ <;>
      first
        | (intro hv; simp [applyDailyHoroscopeUpdate, hv])
        | (intro v hv; simp [applyDailyHoroscopeUpdate, hv])

/-- A daily-horoscope row used by the witness theorems. -/
def wHoroscope : DailyHoroscope :=
  { id := "h1", horoscopeDate := 10, zodiacSign := "aries", language := some "en",
    generalText := "general", loveText := none, careerText := none, healthText := none,
    luckyNumber := none, luckyColor := none, mood := none, createdAt := 1 }

/-- A store holding only `wHoroscope`. -/
def hDB : DB :=
  { horoscopeProfiles := [], dailyHoroscopes := [wHoroscope], horoscopeViews := [] }

/-- The concrete `updateDailyHoroscope` input used by the C7 witness:
only `generalText` is supplied. -/
def updHInput : UpdateDailyHoroscopeInput :=
  ⟨"h1", none, none, none, some "edited", none, none, none, none, none, none⟩

/-- The concrete `updateDailyHoroscope` input targeting a missing row. -/
def missHInput : UpdateDailyHoroscopeInput :=
  ⟨"h404", none, none, none, some "edited", none, none, none, none, none, none⟩

/-- Witness for C7: a caller `u9` unrelated to the row's creator updates
`h1`; the id `h404` matching no row yields `NOT_FOUND`. -/
theorem updateDailyHoroscope_no_ownership_witness :
    updateDailyHoroscope (some ⟨"u9"⟩) updHInput hDB =
      .ok (⟨true, "h1"⟩,
        { hDB with dailyHoroscopes := hDB.dailyHoroscopes.map fun h =>
            if h.id == "h1" then applyDailyHoroscopeUpdate updHInput h else h }) ∧
    updateDailyHoroscope (some ⟨"u1"⟩) missHInput hDB
      = .error dailyHoroscopeNotFoundError :=
  ⟨(updateDailyHoroscope_no_ownership ⟨"u1"⟩ updHInput hDB).1 (by decide) ⟨"u9"⟩,
   (updateDailyHoroscope_no_ownership ⟨"u1"⟩ missHInput hDB).2.1 (by decide)⟩

/-- C8: the `createDailyHoroscope` response carries
`ownerId = user.id`, but the inserted `DailyHoroscope` record is the
same for every caller — the schema has no owner column, so the returned
`ownerId` is never persisted and cannot influence any later decision. -/
theorem createDailyHoroscope_ownerId_not_persisted
    (u : User) (inp : CreateDailyHoroscopeInput) (id : String) (now : Nat) (db : DB) :
    ∃ rec : DailyHoroscope,
      createDailyHoroscope (some u) inp id now db =
        .ok (⟨true, id, u.id⟩, { db with dailyHoroscopes := db.dailyHoroscopes ++ [rec] }) ∧
      ∀ u2 : User,
        createDailyHoroscope (some u2) inp id now db =
          .ok (⟨true, id, u2.id⟩, { db with dailyHoroscopes := db.dailyHoroscopes ++ [rec] }) :=
  ⟨_, rfl, fun _ => rfl⟩

/-- C3: `getDailyHoroscope` with the date omitted behaves exactly as
with the current date supplied; it fails with `NOT_FOUND` exactly when
no stored row satisfies the sign/date(/language) conditions; and when
rows do match it returns the first matching row of the store. -/
theorem getDailyHoroscope_contract
    (user? : Option User) (gi : GetDailyHoroscopeInput) (now : Nat) (db : DB) :
    (gi.horoscopeDate = none →
      getDailyHoroscope user? gi now db =
        getDailyHoroscope user? { gi with horoscopeDate := some now } now db) ∧
    (getDailyHoroscope user? gi now db = .error noHoroscopeFoundError ↔
      ∀ h ∈ db.dailyHoroscopes,
        getConditions gi.zodiacSign (resolveTargetDate gi.horoscopeDate now) gi.language h
          = false) ∧
    (∀ pre h post,
      db.dailyHoroscopes = pre ++ h :: post →
      (∀ h2 ∈ pre,
        getConditions gi.zodiacSign (resolveTargetDate gi.horoscopeDate now) gi.language h2
          = false) →
      getConditions gi.zodiacSign (resolveTargetDate gi.horoscopeDate now) gi.language h
        = true →
      getDailyHoroscope user? gi now db = .ok (⟨true, h⟩, db)) := by
  refine ⟨?_, ?_, ?_⟩
  · intro hd
    simp [getDailyHoroscope, resolveTargetDate, hd]
  · constructor
    · intro heq
      cases hf : db.dailyHoroscopes.find?
          (getConditions gi.zodiacSign (resolveTargetDate gi.horoscopeDate now) gi.language) with
      | none =>
        rw [List.find?_eq_none] at hf
        intro h hm
        simpa using hf h hm
      | some h0 =>
        rw [getDailyHoroscope] at heq
        simp only [hf] at heq
        cases heq
    · intro hall
      have hf : db.dailyHoroscopes.find?
          (getConditions gi.zodiacSign (resolveTargetDate gi.horoscopeDate now) gi.language)
            = none := by
        rw [List.find?_eq_none]
        intro h hm
        simp [hall h hm]
      simp [getDailyHoroscope, hf]
  · intro pre h post hsplit hpre hmatch
    have hf : db.dailyHoroscopes.find?
        (getConditions gi.zodiacSign (resolveTargetDate gi.horoscopeDate now) gi.language)
          = some h := by
      rw [hsplit, List.find?_append]
      have hpre' : pre.find?
          (getConditions gi.zodiacSign (resolveTargetDate gi.horoscopeDate now) gi.language)
            = none := by
        rw [List.find?_eq_none]
        intro h2 hm
        simp [hpre h2 hm]
      rw [hpre', Option.none_or, List.find?_cons_of_pos _ hmatch]
    simp [getDailyHoroscope, hf]

/-- Witness for C3 at the one-row store `hDB`: the omitted date defaults
to now, a mismatching sign yields `NOT_FOUND`, and the matching call
returns the stored row. -/
theorem getDailyHoroscope_contract_witness :
    getDailyHoroscope (some ⟨"u1"⟩) ⟨"aries", none, none⟩ 10 hDB =
      getDailyHoroscope (some ⟨"u1"⟩) ⟨"aries", some 10, none⟩ 10 hDB ∧
    (getDailyHoroscope none ⟨"leo", some 10, none⟩ 10 hDB = .error noHoroscopeFoundError ↔
      ∀ h ∈ hDB.dailyHoroscopes, getConditions "leo" 10 none h = false) ∧
    getDailyHoroscope none ⟨"aries", some 10, none⟩ 10 hDB =
      .ok (⟨true, wHoroscope⟩, hDB) :=
  ⟨(getDailyHoroscope_contract (some ⟨"u1"⟩) ⟨"aries", none, none⟩ 10 hDB).1 rfl,
   (getDailyHoroscope_contract none ⟨"leo", some 10, none⟩ 10 hDB).2.1,
   (getDailyHoroscope_contract none ⟨"aries", some 10, none⟩ 10 hDB).2.2
     [] wHoroscope [] rfl (by decide) (by decide)⟩

/-- C4: `logHoroscopeView` fails with `FORBIDDEN` when the given
`profileId` matches no profile owned by the caller, fails with
`NOT_FOUND` when the profile check passes but the given
`dailyHoroscopeId` matches no row, and in both failure cases returns no
new store state; with both references absent it inserts the view with
no check at all. -/
theorem logHoroscopeView_contract
    (u : User) (inp : LogHoroscopeViewInput) (id : String) (now : Nat) (db : DB) :
    (∀ pid, inp.profileId = some pid → pid ≠ "" →
      (∀ p ∈ db.horoscopeProfiles, p.id = pid → p.userId ≠ u.id) →
      logHoroscopeView (some u) inp id now db = .error profileForbiddenError) ∧
    (∀ hid, inp.dailyHoroscopeId = some hid → hid ≠ "" →
      (∀ pid, inp.profileId = some pid → pid ≠ "" →
        ∃ p ∈ db.horoscopeProfiles, p.id = pid ∧ p.userId = u.id) →
      (∀ h ∈ db.dailyHoroscopes, h.id ≠ hid) →
      logHoroscopeView (some u) inp id now db = .error dailyHoroscopeNotFoundError) ∧
    (inp.profileId = none → inp.dailyHoroscopeId = none →
      logHoroscopeView (some u) inp id now db =
        .ok (⟨true, id⟩,
          { db with horoscopeViews := db.horoscopeViews ++
              [{ id := id, profileId := none, userId := u.id, dailyHoroscopeId := none,
                 viewedAt := now, deviceInfo := inp.deviceInfo, createdAt := now }] })) := by
  refine ⟨?_, ?_, ?_⟩
  · intro pid hp hpne hown
    have hbne : (pid != "") = true := by simpa [bne_iff_ne] using hpne
    have hfind : db.horoscopeProfiles.find? (profileOwnedBy pid u.id) = none := by
      rw [List.find?_eq_none]
      intro p hpm
      simp only [profileOwnedBy, Bool.and_eq_true, beq_iff_eq, not_and]
      exact hown p hpm
    simp [logHoroscopeView, requireUser, hp, hbne, hfind]
  · intro hid hh hhne hpass hnone
    have hbne : (hid != "") = true := by simpa [bne_iff_ne] using hhne
    have hfindH : db.dailyHoroscopes.find? (fun h => h.id == hid) = none := by
      rw [List.find?_eq_none]
      intro h hm
      simpa using hnone h hm
    cases hp : inp.profileId with
    | none => simp [logHoroscopeView, requireUser, hp, hh, hbne, hfindH]
    | some pid =>
      by_cases hpe : pid = ""
      · subst hpe
        simp [logHoroscopeView, requireUser, hp, hh, hbne, hfindH]
      · obtain ⟨p, hm, hid2, huid⟩ := hpass pid hp hpe
        have hfindP : (db.horoscopeProfiles.find? (profileOwnedBy pid u.id)).isSome := by
          rw [List.find?_isSome]
          exact ⟨p, hm, by simp [profileOwnedBy, hid2, huid]⟩
        obtain ⟨p0, hp0⟩ := Option.isSome_iff_exists.mp hfindP
        have hbnep : (pid != "") = true := by simpa [bne_iff_ne] using hpe
        simp [logHoroscopeView, requireUser, hp, hh, hbne, hbnep, hfindH, hp0]
  · intro h1 h2
    simp [logHoroscopeView, requireUser, h1, h2]

/-- Witness for C4: wrong-owner profile reference, missing horoscope
reference, and a reference-free view over concrete stores. -/
theorem logHoroscopeView_contract_witness :
    logHoroscopeView (some ⟨"u1"⟩) ⟨some "p1", some "h1", none⟩ "v2" 8 wDB
      = .error profileForbiddenError ∧
    logHoroscopeView (some ⟨"u1"⟩) ⟨none, some "h404", none⟩ "v2" 8 hDB
      = .error dailyHoroscopeNotFoundError ∧
    logHoroscopeView (some ⟨"u1"⟩) ⟨none, none, some "ios"⟩ "v2" 8 emptyDB
      = .ok (⟨true, "v2"⟩,
          { emptyDB with horoscopeViews := [⟨"v2", none, "u1", none, 8, some "ios", 8⟩] }) :=
  ⟨(logHoroscopeView_contract ⟨"u1"⟩ ⟨some "p1", some "h1", none⟩ "v2" 8 wDB).1
      "p1" rfl (by decide) (by decide),
   (logHoroscopeView_contract ⟨"u1"⟩ ⟨none, some "h404", none⟩ "v2" 8 hDB).2.1
      "h404" rfl (by decide) (by intro pid hp; exact Option.noConfusion hp) (by decide),
   (logHoroscopeView_contract ⟨"u1"⟩ ⟨none, none, some "ios"⟩ "v2" 8 emptyDB).2.2 rfl rfl⟩

/-- The language condition of `getDailyHoroscope` with an empty-string
language is the same predicate as with the language omitted. -/
theorem getConditions_empty_language (sign : String) (td : Nat) :
    getConditions sign td (some "") = getConditions sign td none := by
  funext h
  simp [getConditions]

/-- The `listDailyHoroscopes` conditions with an empty-string
`zodiacSign` are the same predicate as with the sign omitted. -/
theorem listConditions_empty_sign (li : ListDailyHoroscopesInput)
    (hz : li.zodiacSign = some "") :
    listConditions (some li) = listConditions (some { li with zodiacSign := none }) := by
  funext h
  simp [listConditions, hz]

/-- The `listDailyHoroscopes` conditions with an empty-string
`language` are the same predicate as with the language omitted. -/
theorem listConditions_empty_language (li : ListDailyHoroscopesInput)
    (hl : li.language = some "") :
    listConditions (some li) = listConditions (some { li with language := none }) := by
  funext h
  simp [listConditions, hl]

/-- C10: an empty-string `language` in `getDailyHoroscope`, and an
empty-string `zodiacSign` or `language` in `listDailyHoroscopes`, are
treated as absent filters: the call returns exactly the same result as
the same call with that field omitted. -/
theorem empty_string_filters_treated_absent
    (user? : Option User) (now : Nat) (db : DB)
    (gi : GetDailyHoroscopeInput) (li1 li2 : ListDailyHoroscopesInput)
    (hg : gi.language = some "")
    (hz : li1.zodiacSign = some "") (hl : li2.language = some "") :
    getDailyHoroscope user? gi now db =
      getDailyHoroscope user? { gi with language := none } now db ∧
    listDailyHoroscopes user? (some li1) db =
      listDailyHoroscopes user? (some { li1 with zodiacSign := none }) db ∧
    listDailyHoroscopes user? (some li2) db =
      listDailyHoroscopes user? (some { li2 with language := none }) db := by
  refine ⟨?_, ?_, ?_⟩
  · simp only [getDailyHoroscope]
    rw [hg, getConditions_empty_language]
  · simp only [listDailyHoroscopes]
    rw [listConditions_empty_sign li1 hz]
  · simp only [listDailyHoroscopes]
    rw [listConditions_empty_language li2 hl]

/-- Witness for C10 at the one-row store `hDB`. -/
theorem empty_string_filters_treated_absent_witness :
    getDailyHoroscope (some ⟨"u1"⟩) ⟨"aries", some 10, some ""⟩ 10 hDB =
      getDailyHoroscope (some ⟨"u1"⟩) ⟨"aries", some 10, none⟩ 10 hDB ∧
    listDailyHoroscopes (some ⟨"u1"⟩) (some ⟨some "", some 10, some "en"⟩) hDB =
      listDailyHoroscopes (some ⟨"u1"⟩) (some ⟨none, some 10, some "en"⟩) hDB ∧
    listDailyHoroscopes (some ⟨"u1"⟩) (some ⟨some "aries", none, some ""⟩) hDB =
      listDailyHoroscopes (some ⟨"u1"⟩) (some ⟨some "aries", none, none⟩) hDB :=
  empty_string_filters_treated_absent (some ⟨"u1"⟩) 10 hDB
    ⟨"aries", some 10, some ""⟩ ⟨some "", some 10, some "en"⟩ ⟨some "aries", none, some ""⟩
    rfl rfl rfl

/-- C9: `logHoroscopeView` with a `profileId` matching no profile at all
fails with the same `FORBIDDEN` error as one matching a profile owned by
a different user: the two stores are indistinguishable to the caller. -/
theorem logView_absent_profile_forbidden
    (u : User) (inp : LogHoroscopeViewInput) (id : String) (now : Nat)
    (dbA dbW : DB) (pid : String)
    (hp : inp.profileId = some pid) (hne : pid ≠ "")
    (hA : ∀ p ∈ dbA.horoscopeProfiles, p.id ≠ pid)
    (hW : ∀ p ∈ dbW.horoscopeProfiles, p.id = pid → p.userId ≠ u.id) :
    logHoroscopeView (some u) inp id now dbA = .error profileForbiddenError ∧
    logHoroscopeView (some u) inp id now dbW = .error profileForbiddenError := by
  have hbne : (pid != "") = true := by simpa [bne_iff_ne] using hne
  have hA' : dbA.horoscopeProfiles.find? (profileOwnedBy pid u.id) = none := by
    rw [List.find?_eq_none]
    intro p hpm
    simp only [profileOwnedBy, Bool.and_eq_true, beq_iff_eq, not_and]
    intro hid _
    exact hA p hpm hid
  have hW' : dbW.horoscopeProfiles.find? (profileOwnedBy pid u.id) = none := by
    rw [List.find?_eq_none]
    intro p hpm
    simp only [profileOwnedBy, Bool.and_eq_true, beq_iff_eq, not_and]
    exact hW p hpm
  constructor
  · simp [logHoroscopeView, requireUser, hp, hbne, hA']
  · simp [logHoroscopeView, requireUser, hp, hbne, hW']

/-- Witness for C9: caller `u1`, profile id `p1`, against the empty
store and against the store whose only `p1` is owned by `u2`. -/
theorem logView_absent_profile_forbidden_witness :
    logHoroscopeView (some ⟨"u1"⟩) ⟨some "p1", none, none⟩ "v1" 7 emptyDB
      = .error profileForbiddenError ∧
    logHoroscopeView (some ⟨"u1"⟩) ⟨some "p1", none, none⟩ "v1" 7 wDB
      = .error profileForbiddenError :=
  logView_absent_profile_forbidden ⟨"u1"⟩ ⟨some "p1", none, none⟩ "v1" 7
    emptyDB wDB "p1" rfl (by decide) (by decide) (by decide)

end HoroscopeAI
